import Mathlib

/-!
Verification development for the CRO scoring and comparison service
(backend/routes/cro.py, backend/services/performance_analyzer.py,
backend/models.py).

The Python code is embedded shallowly:

* pydantic models become Lean structures;
* Python `float` metric values become `ℚ` (the service only ever divides
  by 1000 and compares against small integer thresholds, which is exact
  rational arithmetic; `%.0f` / `%.2f` formatting of these values is
  round-half-to-even of the exact rational, which coincides with CPython
  float formatting on all values the service produces away from
  representation-error corner cases);
* the external collaborators `extract_html_content` (scraper) and
  `measure_performance` (browser timing) are passed in as oracle
  functions `String → Option _`, where `none` models the collaborator
  raising an exception;
* a Python function that can raise an `HTTPException` becomes a function
  into `Option` / `Except`.
-/

namespace CroService

/-- models.py `CROBreakdown`: per-category CRO points. -/
structure CROBreakdown where
  title : Nat
  meta_description : Nat
  h1_tags : Nat
  ctas : Nat
  forms : Nat
  content : Nat
deriving DecidableEq

/-- models.py `PerformanceMetrics`. `page_size_kb` is `Optional[float]`. -/
structure PerformanceMetrics where
  load_time_ms : ℚ
  dom_content_loaded_ms : ℚ
  page_size_kb : Option ℚ
  performance_score : Nat
deriving DecidableEq

/-- The dict returned by `extract_html_content` (services/scraper.py),
restricted to the keys `calculate_cro_score` reads. `meta_description`
may be `None` in Python, hence `Option String`; the page title is always
a (possibly empty) string. -/
structure ContentData where
  title : String
  meta_description : Option String
  h1_tags : List String
  cta_texts : List String
  has_forms : Bool
  content_length : Nat
deriving DecidableEq

/-- models.py `CROAnalysis`: result of the standalone endpoint;
`performance` is optional. -/
structure CROAnalysis where
  url : String
  score : Nat
  breakdown : CROBreakdown
  recommendations : List String
  performance : Option PerformanceMetrics
deriving DecidableEq

/-- models.py `ComparisonResult`: `performance` is mandatory here. -/
structure ComparisonResult where
  url : String
  score : Nat
  breakdown : CROBreakdown
  performance : PerformanceMetrics
  rank : Nat
deriving DecidableEq

/-- models.py `ComparisonAnalysis`. The Python `winner` dict is built by
inserting nine distinct keys in a fixed order; it is embedded as an
association list in that insertion order. -/
structure ComparisonAnalysis where
  timestamp : String
  total_analyzed : Nat
  results : List ComparisonResult
  winner : List (String × String)
  insights : List String
deriving DecidableEq

/-- Round a rational to the nearest integer, ties to even: the value
CPython prints for `f"{x:.0f}"` on an exactly-represented float `x`. -/
def roundHalfEven (q : ℚ) : ℤ :=
  let fl := ⌊q⌋
  if q - fl < 1 / 2 then fl
  else if (1 : ℚ) / 2 < q - fl then fl + 1
  else if fl % 2 = 0 then fl else fl + 1

/-- Python `f"{x:.0f}"` on an exact rational. -/
def fmt0 (q : ℚ) : String := toString (roundHalfEven q)

/-- Two-digit zero padding for the fractional part of `fmt2`. -/
def pad2 (n : Nat) : String := if n < 10 then "0" ++ toString n else toString n

/-- Python `f"{x:.2f}"` on an exact rational (round half to even at the
second decimal). -/
def fmt2 (q : ℚ) : String :=
  let c := roundHalfEven (q * 100)
  if c < 0 then "-" ++ toString ((-c).toNat / 100) ++ "." ++ pad2 ((-c).toNat % 100)
  else toString (c.toNat / 100) ++ "." ++ pad2 (c.toNat % 100)

/-- Title Quality block (20 points) of `calculate_cro_score`
(routes/cro.py): points awarded and recommendations appended.
`if title:` is Python truthiness — the title counts as present iff it is
a non-empty string. -/
def scoreTitle (title : String) : Nat × List String :=
  if title ≠ "" then
    let title_length := title.length
    if 30 ≤ title_length ∧ title_length ≤ 60 then (10 + 10, [])
    else if title_length < 30 then
      (10, ["Title is too short (" ++ toString title_length ++
        " characters). Recommended: 30-60 characters for better SEO."])
    else
      (10, ["Title is too long (" ++ toString title_length ++
        " characters). Recommended: 30-60 characters for better SEO."])
  else
    (0, ["Add a title tag to your page for better SEO and user experience."])

/-- Meta Description block (15 points) of `calculate_cro_score`.
A `None` or empty meta description is falsy in Python. -/
def scoreMetaDescription (meta_desc : Option String) : Nat × List String :=
  match meta_desc with
  | some s =>
    if s ≠ "" then
      let meta_length := s.length
      if 120 ≤ meta_length ∧ meta_length ≤ 160 then (10 + 5, [])
      else if meta_length < 120 then
        (10, ["Meta description is too short (" ++ toString meta_length ++
          " characters). Recommended: 120-160 characters."])
      else
        (10, ["Meta description is too long (" ++ toString meta_length ++
          " characters). Recommended: 120-160 characters."])
    else
      (0, ["Add a meta description to improve search engine results and click-through rates."])
  | none =>
    (0, ["Add a meta description to improve search engine results and click-through rates."])

/-- H1 Tags block (15 points) of `calculate_cro_score`. -/
def scoreH1Tags (h1_tags : List String) : Nat × List String :=
  let h1_count := h1_tags.length
  if h1_count ≥ 1 then
    if h1_count = 1 then (10 + 5, [])
    else
      (10, ["Multiple H1 tags detected (" ++ toString h1_count ++
        "). Stick to one H1 tag for better SEO."])
  else
    (0, ["Add an H1 tag to clearly define your page's main heading."])

/-- Call-to-Action block (25 points) of `calculate_cro_score`. -/
def scoreCtas (cta_texts : List String) : Nat × List String :=
  let cta_count := cta_texts.length
  if cta_count ≥ 1 then
    if cta_count ≥ 2 then (15 + 10, [])
    else
      (15, ["Consider adding more CTA buttons to increase conversion opportunities (currently: 1)."])
  else
    (0, ["Add clear call-to-action buttons to guide users toward conversion."])

/-- Forms block (15 points) of `calculate_cro_score`. -/
def scoreForms (has_forms : Bool) : Nat × List String :=
  if has_forms then (15, [])
  else (0, ["Consider adding a form to capture leads or enable user interaction."])

/-- Content Length block (10 points) of `calculate_cro_score`; the
recommendation shows `content_length // 6` as an approximate word count. -/
def scoreContentLength (content_length : Nat) : Nat × List String :=
  let word_count := content_length / 6
  if content_length > 1800 then (10, [])
  else
    (0, ["Add more content to your page (current: ~" ++ toString word_count ++
      " words, recommended: 300+ words)."])

/-- routes/cro.py `calculate_cro_score`: the six category blocks in
source order, total = sum of the breakdown dict values, then the
congratulation message inserted at the head of the recommendation list
when the total is at least 80 (or at least 60). -/
def calculate_cro_score (content_data : ContentData) : Nat × CROBreakdown × List String :=
  let t := scoreTitle content_data.title
  let m := scoreMetaDescription content_data.meta_description
  let h := scoreH1Tags content_data.h1_tags
  let c := scoreCtas content_data.cta_texts
  let f := scoreForms content_data.has_forms
  let l := scoreContentLength content_data.content_length
  let breakdown : CROBreakdown := ⟨t.1, m.1, h.1, c.1, f.1, l.1⟩
  let recommendations := t.2 ++ m.2 ++ h.2 ++ c.2 ++ f.2 ++ l.2
  let total_score := breakdown.title + breakdown.meta_description + breakdown.h1_tags +
    breakdown.ctas + breakdown.forms + breakdown.content
  let recommendations :=
    if total_score ≥ 80 then
      "🎉 Excellent! Your page follows most CRO best practices." :: recommendations
    else if total_score ≥ 60 then
      "👍 Good job! A few improvements can make your page even better." :: recommendations
    else recommendations
  (total_score, breakdown, recommendations)

/-- Load-time band (max 40) of `calculate_performance_score`
(services/performance_analyzer.py): strict thresholds on
`load_time_ms / 1000`, checked in ascending order. -/
def load_time_points (load_time_ms : ℚ) : Nat :=
  let load_time_s := load_time_ms / 1000
  if load_time_s < 2 then 40
  else if load_time_s < 3 then 30
  else if load_time_s < 5 then 20
  else if load_time_s < 7 then 10
  else 0

/-- DOM-content-loaded band (max 30) of `calculate_performance_score`. -/
def dcl_points (dom_content_loaded_ms : ℚ) : Nat :=
  let dcl_time_s := dom_content_loaded_ms / 1000
  if dcl_time_s < 1 then 30
  else if dcl_time_s < 2 then 20
  else if dcl_time_s < 3 then 10
  else 0

/-- Page-size band (max 30) of `calculate_performance_score`; an absent
`page_size_kb` gets the fixed partial credit of 15. -/
def page_size_points : Option ℚ → Nat
  | some s => if s < 500 then 30 else if s < 1024 then 20 else if s < 2048 then 10 else 0
  | none => 15

/-- services/performance_analyzer.py `calculate_performance_score`:
three additive bands (load time, DOM content loaded, page size),
clamped by `min(score, 100)`. -/
def calculate_performance_score (load_time_ms : ℚ) (dom_content_loaded_ms : ℚ)
    (page_size_kb : Option ℚ) : Nat :=
  min (load_time_points load_time_ms + dcl_points dom_content_loaded_ms +
    page_size_points page_size_kb) 100

/-- services/performance_analyzer.py `get_performance_recommendations`.
`if page_size_kb and page_size_kb >= 2048:` tests Python truthiness of
the optional float first, so `None` and `0.0` both skip the size branch. -/
def get_performance_recommendations (metrics : PerformanceMetrics) : List String :=
  let load_time_s : ℚ := metrics.load_time_ms / 1000
  let dcl_time_s : ℚ := metrics.dom_content_loaded_ms / 1000
  let loadRecs : List String :=
    if load_time_s ≥ 5 then
      ["⚠️ Page load time is slow (" ++ fmt2 load_time_s ++
        "s). Target: < 3s for optimal user experience."]
    else if load_time_s ≥ 3 then
      ["⚡ Page load time is moderate (" ++ fmt2 load_time_s ++
        "s). Consider optimization to get under 2s."]
    else []
  let dclRecs : List String :=
    if dcl_time_s ≥ 2 then
      ["⚠️ DOM Content Loaded time is high (" ++ fmt2 dcl_time_s ++
        "s). Optimize critical rendering path."]
    else []
  let sizeRecs : List String :=
    match metrics.page_size_kb with
    | some s =>
      if s ≠ 0 ∧ s ≥ 2048 then
        ["📦 Page size is large (" ++ fmt0 s ++
          "KB). Compress images, minify CSS/JS, use lazy loading."]
      else if s ≠ 0 ∧ s ≥ 1024 then
        ["📦 Page size is moderate (" ++ fmt0 s ++ "KB). Consider additional optimization."]
      else []
    | none => []
  let generalRecs : List String :=
    if metrics.performance_score < 50 then
      ["🚀 Critical: Implement CDN, enable compression, optimize images, and minimize render-blocking resources."]
    else if metrics.performance_score < 75 then
      ["💡 Consider: Browser caching, code splitting, and async loading of non-critical resources."]
    else
      ["✅ Great performance! Maintain current optimization practices."]
  loadRecs ++ dclRecs ++ sizeRecs ++ generalRecs

/-- routes/cro.py `get_cro_recommendations` (the standalone
`/recommendations` endpoint). `fetch` models `extract_html_content`,
`measure` models `measure_performance`; `none` models the collaborator
raising. A failed content fetch makes the whole request fail (`none`); a
failed (or skipped) performance measurement leaves `performance_data =
None`, so the analysis omits performance and its recommendations. -/
def get_cro_recommendations (url : String) (include_performance : Bool)
    (fetch : String → Option ContentData) (measure : String → Option PerformanceMetrics) :
    Option CROAnalysis :=
  let content_data := fetch url
  let performance_data := if include_performance then measure url else none
  match content_data with
  | none => none
  | some cd =>
    let r := calculate_cro_score cd
    match performance_data with
    | some pm =>
      some ⟨url, r.1, r.2.1, r.2.2 ++ get_performance_recommendations pm, some pm⟩
    | none => some ⟨url, r.1, r.2.1, r.2.2, none⟩

/-- The per-URL record `analyze_single_url` returns into the comparison
pipeline (a Python dict with url, cro_score, breakdown, performance,
performance_score; `combined_score` is added later as cro + performance). -/
structure AnalyzedResult where
  url : String
  cro_score : Nat
  breakdown : CROBreakdown
  performance : PerformanceMetrics
  performance_score : Nat
deriving DecidableEq

/-- `result['combined_score'] = result['cro_score'] + result['performance_score']`
(routes/cro.py, comparison ranking step). -/
def combined_score (r : AnalyzedResult) : Nat := r.cro_score + r.performance_score

/-- routes/cro.py `analyze_single_url`: content-fetch failure is fatal
(`none`), performance-measurement failure is replaced by the all-zero
placeholder dict. -/
def analyze_single_url (url : String) (fetch : String → Option ContentData)
    (measure : String → Option PerformanceMetrics) : Option AnalyzedResult :=
  match fetch url with
  | none => none
  | some content_data =>
    let performance_data : PerformanceMetrics :=
      match measure url with
      | some pm => pm
      | none => ⟨0, 0, none, 0⟩
    let r := calculate_cro_score content_data
    some ⟨url, r.1, r.2.1, performance_data, performance_data.performance_score⟩

/-- Python `max(results, key=f)` over a non-empty list: keeps the current
best and replaces it only on a strictly greater key, so the first
maximum encountered wins ties. -/
def pyMaxBy {α : Type} (f : α → Nat) (x : α) (xs : List α) : α :=
  xs.foldl (fun best y => if f best < f y then y else best) x

/-- Stable insertion step for `sortByDesc`: the new element `x` (which is
earlier in the input) goes before the first element whose key is ≤ its
own, so among equal keys input order is preserved. -/
def insertByDesc {α : Type} (key : α → Nat) (x : α) : List α → List α
  | [] => [x]
  | y :: ys => if key y ≤ key x then x :: y :: ys else y :: insertByDesc key x ys

/-- Python `list.sort(key=..., reverse=True)`: a stable descending sort.
A stable sort's output is determined uniquely by the key order, so this
insertion sort denotes exactly the list CPython's timsort produces. -/
def sortByDesc {α : Type} (key : α → Nat) : List α → List α
  | [] => []
  | x :: xs => insertByDesc key x (sortByDesc key xs)

/-- routes/cro.py `determine_winners`: nine winner entries in source
insertion order; each winner is Python `max(results, key=...)`, i.e. the
first maximum. Called on the already-sorted successful results. -/
def determine_winners : List AnalyzedResult → List (String × String)
  | [] => []
  | r :: rs =>
    [("overall", (pyMaxBy combined_score r rs).url),
     ("cro_score", (pyMaxBy AnalyzedResult.cro_score r rs).url),
     ("performance", (pyMaxBy AnalyzedResult.performance_score r rs).url),
     ("title", (pyMaxBy (fun x => x.breakdown.title) r rs).url),
     ("meta_description", (pyMaxBy (fun x => x.breakdown.meta_description) r rs).url),
     ("h1_tags", (pyMaxBy (fun x => x.breakdown.h1_tags) r rs).url),
     ("ctas", (pyMaxBy (fun x => x.breakdown.ctas) r rs).url),
     ("forms", (pyMaxBy (fun x => x.breakdown.forms) r rs).url),
     ("content", (pyMaxBy (fun x => x.breakdown.content) r rs).url)]

/-- routes/cro.py `generate_comparison_insights`. `results` is the
sorted successful list (so `results[0]` is best, `results[-1]` worst);
averages are Python float divisions displayed with `:.0f` / `:.2f`,
embedded as exact rationals with round-half-even display. -/
def generate_comparison_insights (results : List AnalyzedResult)
    (failed_urls : List String) : List String :=
  match results with
  | [] => ["No successful analyses to compare"]
  | best :: rest =>
    let all := best :: rest
    let n : ℚ := all.length
    let avg_cro : ℚ := ((all.map fun r => (r.cro_score : ℚ)).sum) / n
    let avg_perf : ℚ := ((all.map fun r => (r.performance_score : ℚ)).sum) / n
    let avgInsight :=
      "📊 Average CRO Score: " ++ fmt0 avg_cro ++ "/100 | Average Performance Score: " ++
        fmt0 avg_perf ++ "/100"
    let worst := all.getLast (List.cons_ne_nil best rest)
    let topInsight :=
      "🏆 Top Performer: " ++ best.url ++ " (Combined Score: " ++
        toString (combined_score best) ++ "/200)"
    let gapInsights : List String :=
      if 1 < all.length then
        ["📉 Score Gap: " ++ toString ((combined_score best : ℤ) - (combined_score worst : ℤ)) ++
          " points between best and worst performers"]
      else []
    let cro_scores := all.map AnalyzedResult.cro_score
    let perf_scores := all.map AnalyzedResult.performance_score
    let croMax := (rest.map AnalyzedResult.cro_score).foldl Nat.max best.cro_score
    let croMin := (rest.map AnalyzedResult.cro_score).foldl Nat.min best.cro_score
    let perfMax := (rest.map AnalyzedResult.performance_score).foldl Nat.max best.performance_score
    let perfMin := (rest.map AnalyzedResult.performance_score).foldl Nat.min best.performance_score
    let croVarInsights : List String :=
      if (croMax : ℤ) - (croMin : ℤ) > 30 then
        ["⚠️ Large CRO score variance detected. Focus on bringing lower performers up to standards."]
      else []
    let perfVarInsights : List String :=
      if (perfMax : ℤ) - (perfMin : ℤ) > 30 then
        ["⚡ Significant performance differences found. Slower sites may benefit from CDN and optimization."]
      else []
    let load_times := all.map fun r => r.performance.load_time_ms / 1000
    let avg_load_time : ℚ := load_times.sum / (load_times.length : ℚ)
    let loadInsights : List String :=
      if avg_load_time > 3 then
        ["🐌 Average load time is " ++ fmt2 avg_load_time ++ "s. Target: < 3s for all pages."]
      else []
    let failedInsights : List String :=
      if failed_urls ≠ [] then
        ["❌ " ++ toString failed_urls.length ++ " URL(s) failed to analyze: " ++
          String.intercalate ", " (failed_urls.take 3)]
      else []
    let _ := cro_scores
    let _ := perf_scores
    [avgInsight, topInsight] ++ gapInsights ++ croVarInsights ++ perfVarInsights ++
      loadInsights ++ failedInsights ++
      ["💡 Opportunity: Benchmark against top performer and implement their best practices."]

/-- The errors `compare_competitors` can raise: the two 400-validation
HTTPExceptions (with their detail strings) and the 500 all-failed one. -/
inductive CompareError where
  | validationError (detail : String)
  | allFailedError
deriving DecidableEq

/-- routes/cro.py `compare_competitors` (`/compare` endpoint). `urls` is
the request body; `timestamp` stands for `datetime.utcnow().isoformat()`;
per-URL analyses are `analyze_single_url` with exceptions captured
(`asyncio.gather(..., return_exceptions=True)` models as `Option`). The
successful results are ranked by combined score with Python's stable
descending sort and 1-based enumeration. -/
def compare_competitors (timestamp : String) (urls : List String)
    (fetch : String → Option ContentData) (measure : String → Option PerformanceMetrics) :
    Except CompareError ComparisonAnalysis :=
  if urls.length < 2 then
    .error (.validationError "Please provide at least 2 URLs for comparison")
  else if urls.length > 10 then
    .error (.validationError "Maximum 10 URLs allowed for comparison")
  else
    let results := urls.map fun u => (u, analyze_single_url u fetch measure)
    let successful_results := results.filterMap Prod.snd
    let failed_urls := results.filterMap fun p => if p.2.isNone then some p.1 else none
    if successful_results = [] then .error .allFailedError
    else
      let sorted := sortByDesc combined_score successful_results
      let comparison_results := sorted.enum.map fun p =>
        ComparisonResult.mk p.2.url p.2.cro_score p.2.breakdown p.2.performance (p.1 + 1)
      .ok ⟨timestamp, successful_results.length, comparison_results,
        determine_winners sorted, generate_comparison_insights sorted failed_urls⟩

/-- Spec-side predicate (§4.4 step 6 of the spec): `x` attains the
maximum of `f` over `l` and every element placed before `x` in `l` is
strictly smaller, i.e. `x` is the first maximum encountered. -/
def IsFirstMax {α : Type} (f : α → Nat) (l : List α) (x : α) : Prop :=
  (∀ z ∈ l, f z ≤ f x) ∧ ∃ l₁ l₂, l = l₁ ++ x :: l₂ ∧ ∀ z ∈ l₁, f z < f x

/-! Concrete fixtures used by witness and counterexample theorems. -/

def title29 : String := String.mk (List.replicate 29 'a')

def title30 : String := String.mk (List.replicate 30 'a')

def title60 : String := String.mk (List.replicate 60 'a')

def title61 : String := String.mk (List.replicate 61 'a')

def meta120 : String := String.mk (List.replicate 120 'b')

/-- Page signals scoring the full 100 CRO points. -/
def cdFull : ContentData := ⟨title30, some meta120, ["h"], ["c1", "c2"], true, 1801⟩

/-- Page signals scoring 90 CRO points (no content-length bonus). -/
def cd90 : ContentData := ⟨title30, some meta120, ["h"], ["c1", "c2"], true, 0⟩

/-- Page signals scoring 10 CRO points (short title only). -/
def cd10 : ContentData := ⟨title29, none, [], [], false, 0⟩

/-- Page signals scoring 25 CRO points (two CTAs only). -/
def cd25 : ContentData := ⟨"", none, [], ["c1", "c2"], false, 0⟩

def pmScore50 : PerformanceMetrics := ⟨0, 0, none, 50⟩

def pmScore0 : PerformanceMetrics := ⟨0, 0, none, 0⟩

/-- A measurement collaborator that always fails. -/
def measNone : String → Option PerformanceMetrics := fun _ => none

/-- A fetch collaborator that always fails. -/
def fetchNone : String → Option ContentData := fun _ => none

/-- Fetch oracle for the ranking example: "b" scores 90, others 100. -/
def fetchC2 : String → Option ContentData := fun u => if u = "b" then some cd90 else some cdFull

/-- Measure oracle for the ranking example: "b" gets performance 0, others 50,
so the combined scores of "a", "b", "c" are 150, 90, 150. -/
def measC2 : String → Option PerformanceMetrics :=
  fun u => if u = "b" then some pmScore0 else some pmScore50

def runC2 : Except CompareError ComparisonAnalysis :=
  compare_competitors "2024-01-01T00:00:00" ["a", "b", "c"] fetchC2 measC2

def analysisC2 : ComparisonAnalysis :=
  match runC2 with
  | .ok a => a
  | .error _ => ⟨"", 0, [], [], []⟩

/-- Fetch oracle for the partial-failure example: "b" fails. -/
def fetchC4 : String → Option ContentData := fun u => if u = "b" then none else some cdFull

def runC4 : Except CompareError ComparisonAnalysis :=
  compare_competitors "2024-01-01T00:00:00" ["a", "b", "c"] fetchC4 measNone

def analysisC4 : ComparisonAnalysis :=
  match runC4 with
  | .ok a => a
  | .error _ => ⟨"", 0, [], [], []⟩

/-- Fetch oracle for the rounding example: "a" scores 10 CRO points, the
rest 25, so the average CRO score over two URLs is 17.5. -/
def fetchC9 : String → Option ContentData := fun u => if u = "a" then some cd10 else some cd25

def runC9 : Except CompareError ComparisonAnalysis :=
  compare_competitors "2024-01-01T00:00:00" ["a", "b"] fetchC9 measNone

def analysisC9 : ComparisonAnalysis :=
  match runC9 with
  | .ok a => a
  | .error _ => ⟨"", 0, [], [], []⟩

/-! Helper lemmas about the six scoring blocks. -/

theorem scoreTitle_fst_le (t : String) : (scoreTitle t).1 ≤ 20 := by
  simp only [scoreTitle]; split_ifs <;> simp

theorem scoreMetaDescription_fst_le (m : Option String) : (scoreMetaDescription m).1 ≤ 15 := by
  cases m with
  | none => simp [scoreMetaDescription]
  | some s => simp only [scoreMetaDescription]; split_ifs <;> simp

theorem scoreH1Tags_fst_le (h : List String) : (scoreH1Tags h).1 ≤ 15 := by
  simp only [scoreH1Tags]; split_ifs <;> simp

theorem scoreCtas_fst_le (c : List String) : (scoreCtas c).1 ≤ 25 := by
  simp only [scoreCtas]; split_ifs <;> simp

theorem scoreForms_fst_le (b : Bool) : (scoreForms b).1 ≤ 15 := by
  simp only [scoreForms]; split_ifs <;> simp

theorem scoreContentLength_fst_le (n : Nat) : (scoreContentLength n).1 ≤ 10 := by
  simp only [scoreContentLength]; split_ifs <;> simp

theorem scoreTitle_snd_nil (t : String) : (scoreTitle t).2 = [] → (scoreTitle t).1 = 20 := by
  simp only [scoreTitle]; split_ifs <;> simp

theorem scoreMetaDescription_snd_nil (m : Option String) :
    (scoreMetaDescription m).2 = [] → (scoreMetaDescription m).1 = 15 := by
  cases m with
  | none => simp [scoreMetaDescription]
  | some s => simp only [scoreMetaDescription]; split_ifs <;> simp

theorem scoreH1Tags_snd_nil (h : List String) : (scoreH1Tags h).2 = [] → (scoreH1Tags h).1 = 15 := by
  simp only [scoreH1Tags]; split_ifs <;> simp

theorem scoreCtas_snd_nil (c : List String) : (scoreCtas c).2 = [] → (scoreCtas c).1 = 25 := by
  simp only [scoreCtas]; split_ifs <;> simp

theorem scoreForms_snd_nil (b : Bool) : (scoreForms b).2 = [] → (scoreForms b).1 = 15 := by
  simp only [scoreForms]; split_ifs <;> simp

theorem scoreContentLength_snd_nil (n : Nat) :
    (scoreContentLength n).2 = [] → (scoreContentLength n).1 = 10 := by
  simp only [scoreContentLength]; split_ifs <;> simp

/-- The recommendation list of `calculate_cro_score` contains every
recommendation the title block appended. -/
theorem mem_recs_of_mem_scoreTitle (cd : ContentData) {x : String}
    (hx : x ∈ (scoreTitle cd.title).2) : x ∈ (calculate_cro_score cd).2.2 := by
  unfold calculate_cro_score
  dsimp only
  split_ifs <;> simp [hx]

/-- C1: for every well-formed page-signal record the CRO score is the sum
of the six breakdown values, each breakdown value is at most its category
maximum (20, 15, 15, 25, 15, 10), and hence the total is in [0, 100]. -/
theorem claim_C1_score_is_breakdown_sum (cd : ContentData) :
    (calculate_cro_score cd).1 =
      (calculate_cro_score cd).2.1.title + (calculate_cro_score cd).2.1.meta_description +
      (calculate_cro_score cd).2.1.h1_tags + (calculate_cro_score cd).2.1.ctas +
      (calculate_cro_score cd).2.1.forms + (calculate_cro_score cd).2.1.content ∧
    (calculate_cro_score cd).2.1.title ≤ 20 ∧
    (calculate_cro_score cd).2.1.meta_description ≤ 15 ∧
    (calculate_cro_score cd).2.1.h1_tags ≤ 15 ∧
    (calculate_cro_score cd).2.1.ctas ≤ 25 ∧
    (calculate_cro_score cd).2.1.forms ≤ 15 ∧
    (calculate_cro_score cd).2.1.content ≤ 10 ∧
    (calculate_cro_score cd).1 ≤ 100 := by
  have ht := scoreTitle_fst_le cd.title
  have hm := scoreMetaDescription_fst_le cd.meta_description
  have hh := scoreH1Tags_fst_le cd.h1_tags
  have hc := scoreCtas_fst_le cd.cta_texts
  have hf := scoreForms_fst_le cd.has_forms
  have hl := scoreContentLength_fst_le cd.content_length
  unfold calculate_cro_score
  dsimp only
  exact ⟨rfl, ht, hm, hh, hc, hf, hl, by omega⟩

/-- C10: `calculate_cro_score` always returns at least one
recommendation: a block below its maximum appends one, and when every
block is at its maximum the total is 100 and the congratulation message
is inserted at the head. -/
theorem claim_C10_recommendations_nonempty (cd : ContentData) :
    (calculate_cro_score cd).2.2 ≠ [] := by
  unfold calculate_cro_score
  dsimp only
  split_ifs with h80 h60
  · simp
  · simp
  · intro hnil
    simp only [List.append_eq_nil] at hnil
    obtain ⟨⟨⟨⟨⟨ht, hm⟩, hh⟩, hc⟩, hf⟩, hl⟩ := hnil
    have t1 := scoreTitle_snd_nil cd.title ht
    have t2 := scoreMetaDescription_snd_nil cd.meta_description hm
    have t3 := scoreH1Tags_snd_nil cd.h1_tags hh
    have t4 := scoreCtas_snd_nil cd.cta_texts hc
    have t5 := scoreForms_snd_nil cd.has_forms hf
    have t6 := scoreContentLength_snd_nil cd.content_length hl
    omega

/-- C6: the title category awards 10 points for a present (non-empty)
title plus 10 more exactly when the length is within [30, 60]; a present
title outside the range appends the too-short/too-long recommendation
naming the exact character count, and an absent title earns 0 points and
appends the add-a-title recommendation. -/
theorem claim_C6_title_rubric (cd : ContentData) :
    ((calculate_cro_score cd).2.1.title =
      if cd.title ≠ "" then
        (if 30 ≤ cd.title.length ∧ cd.title.length ≤ 60 then 20 else 10)
      else 0) ∧
    (cd.title ≠ "" → cd.title.length < 30 →
      ("Title is too short (" ++ toString cd.title.length ++
        " characters). Recommended: 30-60 characters for better SEO.") ∈
        (calculate_cro_score cd).2.2) ∧
    (cd.title ≠ "" → 60 < cd.title.length →
      ("Title is too long (" ++ toString cd.title.length ++
        " characters). Recommended: 30-60 characters for better SEO.") ∈
        (calculate_cro_score cd).2.2) ∧
    (cd.title = "" →
      "Add a title tag to your page for better SEO and user experience." ∈
        (calculate_cro_score cd).2.2) := by
  refine ⟨?_, ?_, ?_, ?_⟩
  · have heq : (calculate_cro_score cd).2.1.title = (scoreTitle cd.title).1 := by
      unfold calculate_cro_score; dsimp only
    rw [heq]
    simp only [scoreTitle]
    split_ifs <;> simp_all
  · intro hne hlt
    apply mem_recs_of_mem_scoreTitle
    unfold scoreTitle
    rw [if_pos hne, if_neg (by omega), if_pos hlt]
    simp
  · intro hne hgt
    apply mem_recs_of_mem_scoreTitle
    unfold scoreTitle
    rw [if_pos hne, if_neg (by omega), if_neg (by omega)]
    simp
  · intro he
    apply mem_recs_of_mem_scoreTitle
    unfold scoreTitle
    rw [if_neg (by simp [he])]
    simp

/-- C6 witness: titles of length 29, 30, 60, 61 and the empty title. -/
theorem claim_C6_title_rubric_witness :
    (calculate_cro_score ⟨title30, none, [], [], false, 0⟩).2.1.title = 20 ∧
    (calculate_cro_score ⟨title60, none, [], [], false, 0⟩).2.1.title = 20 ∧
    (calculate_cro_score ⟨title29, none, [], [], false, 0⟩).2.1.title = 10 ∧
    (calculate_cro_score ⟨title61, none, [], [], false, 0⟩).2.1.title = 10 ∧
    ("Title is too short (29 characters). Recommended: 30-60 characters for better SEO." ∈
      (calculate_cro_score ⟨title29, none, [], [], false, 0⟩).2.2) ∧
    ("Title is too long (61 characters). Recommended: 30-60 characters for better SEO." ∈
      (calculate_cro_score ⟨title61, none, [], [], false, 0⟩).2.2) ∧
    ("Add a title tag to your page for better SEO and user experience." ∈
      (calculate_cro_score ⟨"", none, [], [], false, 0⟩).2.2) := by
  refine ⟨?_, ?_, ?_, ?_, ?_, ?_, ?_⟩
  · rw [(claim_C6_title_rubric ⟨title30, none, [], [], false, 0⟩).1]; decide
  · rw [(claim_C6_title_rubric ⟨title60, none, [], [], false, 0⟩).1]; decide
  · rw [(claim_C6_title_rubric ⟨title29, none, [], [], false, 0⟩).1]; decide
  · rw [(claim_C6_title_rubric ⟨title61, none, [], [], false, 0⟩).1]; decide
  · exact (claim_C6_title_rubric ⟨title29, none, [], [], false, 0⟩).2.1 (by decide) (by decide)
  · exact (claim_C6_title_rubric ⟨title61, none, [], [], false, 0⟩).2.2.1 (by decide) (by decide)
  · exact (claim_C6_title_rubric ⟨"", none, [], [], false, 0⟩).2.2.2 rfl

/-- C5: the performance score is the plain sum of the three bands (the
`min` clamp never binds because the bands are bounded by 40 + 30 + 30);
the load-time band has strict ascending thresholds
(1999 ms → 40, 2000 → 30, 2999 → 30, 3000 → 20, 6999 → 10, 7000 → 0),
the DOM-content-loaded band awards 30/20/10/0 at the strict 1s/2s/3s
thresholds, and an absent page size is worth exactly 15 band points. -/
theorem claim_C5_performance_bands :
    (∀ (l d : ℚ) (s : Option ℚ),
      calculate_performance_score l d s = load_time_points l + dcl_points d + page_size_points s) ∧
    load_time_points 1999 = 40 ∧ load_time_points 2000 = 30 ∧ load_time_points 2999 = 30 ∧
    load_time_points 3000 = 20 ∧ load_time_points 6999 = 10 ∧ load_time_points 7000 = 0 ∧
    dcl_points 999 = 30 ∧ dcl_points 1000 = 20 ∧ dcl_points 1999 = 20 ∧ dcl_points 2000 = 10 ∧
    dcl_points 2999 = 10 ∧ dcl_points 3000 = 0 ∧
    (∀ s : Option ℚ, s = none → page_size_points s = 15) := by
  refine ⟨?_, ?_, ?_, ?_, ?_, ?_, ?_, ?_, ?_, ?_, ?_, ?_, ?_, ?_⟩
  · intro l d s
    have h1 : load_time_points l ≤ 40 := by
      simp only [load_time_points]; split_ifs <;> simp
    have h2 : dcl_points d ≤ 30 := by
      simp only [dcl_points]; split_ifs <;> simp
    have h3 : page_size_points s ≤ 30 := by
      cases s with
      | none => simp [page_size_points]
      | some v => simp only [page_size_points]; split_ifs <;> simp
    unfold calculate_performance_score
    omega
  · norm_num [load_time_points]
  · norm_num [load_time_points]
  · norm_num [load_time_points]
  · norm_num [load_time_points]
  · norm_num [load_time_points]
  · norm_num [load_time_points]
  · norm_num [dcl_points]
  · norm_num [dcl_points]
  · norm_num [dcl_points]
  · norm_num [dcl_points]
  · norm_num [dcl_points]
  · norm_num [dcl_points]
  · intro s hs; rw [hs]; rfl

/-- C5 witness: the band decomposition and the absent-page-size credit at
a concrete metric record. -/
theorem claim_C5_performance_bands_witness :
    calculate_performance_score 1999 999 none =
      load_time_points 1999 + dcl_points 999 + page_size_points none ∧
    page_size_points none = 15 := by
  exact ⟨claim_C5_performance_bands.1 1999 999 none,
    claim_C5_performance_bands.2.2.2.2.2.2.2.2.2.2.2.2.2 none rfl⟩

/-- C7: when content extraction succeeds and performance measurement
fails, the standalone endpoint returns the analysis with performance
absent and only the content recommendations, while the comparison-mode
`analyze_single_url` substitutes the all-zero performance placeholder
(load 0, DOM-content-loaded 0, page size absent, score 0). -/
theorem claim_C7_performance_failure_modes (url : String)
    (fetch : String → Option ContentData) (measure : String → Option PerformanceMetrics)
    (cd : ContentData) (hf : fetch url = some cd) (hm : measure url = none) :
    get_cro_recommendations url true fetch measure =
      some ⟨url, (calculate_cro_score cd).1, (calculate_cro_score cd).2.1,
        (calculate_cro_score cd).2.2, none⟩ ∧
    analyze_single_url url fetch measure =
      some ⟨url, (calculate_cro_score cd).1, (calculate_cro_score cd).2.1, ⟨0, 0, none, 0⟩, 0⟩ := by
  constructor
  · unfold get_cro_recommendations
    rw [if_pos rfl, hf, hm]
  · unfold analyze_single_url
    rw [hf, hm]

/-- C7 witness: a fetch that returns the short-title page and a measure
collaborator that always fails. -/
theorem claim_C7_performance_failure_modes_witness :
    get_cro_recommendations "u" true (fun _ => some cd10) measNone =
      some ⟨"u", (calculate_cro_score cd10).1, (calculate_cro_score cd10).2.1,
        (calculate_cro_score cd10).2.2, none⟩ ∧
    analyze_single_url "u" (fun _ => some cd10) measNone =
      some ⟨"u", (calculate_cro_score cd10).1, (calculate_cro_score cd10).2.1, ⟨0, 0, none, 0⟩, 0⟩ :=
  claim_C7_performance_failure_modes "u" (fun _ => some cd10) measNone cd10 rfl rfl

/-- C3: the comparison endpoint raises the at-least-2 validation error
for fewer than 2 URLs and the at-most-10 one for more than 10; for 2–10
URLs no validation error is raised; and if every per-URL analysis fails
it raises the all-failed error. -/
theorem claim_C3_validation_and_all_failed (ts : String) (urls : List String)
    (fetch : String → Option ContentData) (measure : String → Option PerformanceMetrics) :
    (urls.length < 2 → compare_competitors ts urls fetch measure =
      .error (.validationError "Please provide at least 2 URLs for comparison")) ∧
    (urls.length > 10 → compare_competitors ts urls fetch measure =
      .error (.validationError "Maximum 10 URLs allowed for comparison")) ∧
    (2 ≤ urls.length → urls.length ≤ 10 →
      ∀ d, compare_competitors ts urls fetch measure ≠ .error (.validationError d)) ∧
    (2 ≤ urls.length → urls.length ≤ 10 →
      (∀ u ∈ urls, analyze_single_url u fetch measure = none) →
      compare_competitors ts urls fetch measure = .error .allFailedError) := by
  refine ⟨?_, ?_, ?_, ?_⟩
  · intro h
    unfold compare_competitors
    rw [if_pos h]
  · intro h
    unfold compare_competitors
    rw [if_neg (by omega), if_pos h]
  · intro h2 h10 d
    unfold compare_competitors
    rw [if_neg (by omega), if_neg (by omega)]
    dsimp only
    split <;> simp
  · intro h2 h10 hall
    have hnil : ((urls.map fun u => (u, analyze_single_url u fetch measure)).filterMap
        Prod.snd) = [] := by
      rw [List.filterMap_map]
      refine List.filterMap_eq_nil_iff.mpr ?_
      intro u hu
      simpa using hall u hu
    unfold compare_competitors
    rw [if_neg (by omega), if_neg (by omega)]
    dsimp only
    rw [if_pos hnil]

/-- C3 witness: 1 URL and 11 URLs fail validation; 2 URLs pass both
validation checks; 2 URLs whose fetches all fail give the all-failed
error. -/
theorem claim_C3_validation_and_all_failed_witness :
    compare_competitors "t" ["u1"] fetchNone measNone =
      .error (.validationError "Please provide at least 2 URLs for comparison") ∧
    compare_competitors "t" ["u1", "u2", "u3", "u4", "u5", "u6", "u7", "u8", "u9", "u10", "u11"]
        fetchNone measNone =
      .error (.validationError "Maximum 10 URLs allowed for comparison") ∧
    compare_competitors "t" ["a", "b"] fetchC2 measC2 ≠
      .error (.validationError "Please provide at least 2 URLs for comparison") ∧
    compare_competitors "t" ["a", "b"] fetchC2 measC2 ≠
      .error (.validationError "Maximum 10 URLs allowed for comparison") ∧
    compare_competitors "t" ["a", "b"] fetchNone measNone = .error .allFailedError := by
  refine ⟨?_, ?_, ?_, ?_, ?_⟩
  · exact (claim_C3_validation_and_all_failed "t" ["u1"] fetchNone measNone).1 (by decide)
  · exact (claim_C3_validation_and_all_failed "t"
      ["u1", "u2", "u3", "u4", "u5", "u6", "u7", "u8", "u9", "u10", "u11"]
      fetchNone measNone).2.1 (by decide)
  · exact (claim_C3_validation_and_all_failed "t" ["a", "b"] fetchC2 measC2).2.2.1
      (by decide) (by decide) _
  · exact (claim_C3_validation_and_all_failed "t" ["a", "b"] fetchC2 measC2).2.2.1
      (by decide) (by decide) _
  · exact (claim_C3_validation_and_all_failed "t" ["a", "b"] fetchNone measNone).2.2.2
      (by decide) (by decide) (fun u _ => rfl)

/-! Properties of the stable descending sort. -/

theorem insertByDesc_perm {α : Type} (key : α → Nat) (x : α) (l : List α) :
    List.Perm (insertByDesc key x l) (x :: l) := by
  induction l with
  | nil => exact List.Perm.refl _
  | cons y ys ih =>
    simp only [insertByDesc]
    split_ifs with h
    · exact List.Perm.refl _
    · exact (ih.cons y).trans (List.Perm.swap x y ys)

theorem sortByDesc_perm {α : Type} (key : α → Nat) (l : List α) :
    List.Perm (sortByDesc key l) l := by
  induction l with
  | nil => exact List.Perm.refl _
  | cons x xs ih => exact (insertByDesc_perm key x (sortByDesc key xs)).trans (ih.cons x)

theorem pairwise_insertByDesc {α : Type} (key : α → Nat) (x : α) {l : List α}
    (hl : l.Pairwise fun a b => key b ≤ key a) :
    (insertByDesc key x l).Pairwise fun a b => key b ≤ key a := by
  induction l with
  | nil => simp [insertByDesc]
  | cons y ys ih =>
    obtain ⟨hy, hys⟩ := List.pairwise_cons.mp hl
    simp only [insertByDesc]
    split_ifs with h
    · refine List.pairwise_cons.mpr ⟨?_, hl⟩
      intro z hz
      rcases List.mem_cons.mp hz with rfl | hz'
      · exact h
      · exact le_trans (hy z hz') h
    · refine List.pairwise_cons.mpr ⟨?_, ih hys⟩
      intro z hz
      have hz2 : z = x ∨ z ∈ ys := by
        simpa using (insertByDesc_perm key x ys).mem_iff.mp hz
      rcases hz2 with rfl | hz'
      · omega
      · exact hy z hz'

theorem sortByDesc_sorted {α : Type} (key : α → Nat) (l : List α) :
    (sortByDesc key l).Pairwise fun a b => key b ≤ key a := by
  induction l with
  | nil => simp [sortByDesc]
  | cons x xs ih => exact pairwise_insertByDesc key x ih

theorem insertByDesc_filter_key {α : Type} (key : α → Nat) (x : α) (l : List α) (k : Nat) :
    (insertByDesc key x l).filter (fun z => key z == k) =
      (x :: l).filter (fun z => key z == k) := by
  induction l with
  | nil => rfl
  | cons y ys ih =>
    simp only [insertByDesc]
    split_ifs with h
    · rfl
    · have hxy : key x < key y := by omega
      by_cases hx : key x = k <;> by_cases hy : key y = k
      · exact absurd hxy (by omega)
      · simp only [List.filter_cons, hx, hy, ih, beq_iff_eq, if_pos, if_neg, decide_eq_true_eq]
        simp [hx, hy]
      · simp only [List.filter_cons, ih]
        simp [hx, hy]
      · simp only [List.filter_cons, ih]
        simp [hx, hy]

theorem sortByDesc_filter_key {α : Type} (key : α → Nat) (l : List α) (k : Nat) :
    (sortByDesc key l).filter (fun z => key z == k) = l.filter (fun z => key z == k) := by
  induction l with
  | nil => rfl
  | cons x xs ih =>
    simp only [sortByDesc]
    rw [insertByDesc_filter_key]
    simp only [List.filter_cons, ih]

/-- `enumerate(..., 1)`: the assigned ranks are the 1-based positions. -/
theorem enum_map_rank {β : Type} (l : List β) :
    l.enum.map (fun p => p.1 + 1) = List.range' 1 l.length := by
  have h1 : l.enum.map (fun p => p.1 + 1) = (l.enum.map Prod.fst).map (fun i => i + 1) := by
    rw [List.map_map]; rfl
  rw [h1, List.enum_map_fst, List.range'_eq_map_range]
  exact List.map_congr_left fun a _ => by omega

/-- Inversion of the success path of `compare_competitors`: the returned
analysis is built from the sorted successful results, and at least one
URL succeeded. -/
theorem compare_competitors_ok_inv (ts : String) (urls : List String)
    (fetch : String → Option ContentData) (measure : String → Option PerformanceMetrics)
    (a : ComparisonAnalysis)
    (h : compare_competitors ts urls fetch measure = .ok a) :
    a = ⟨ts,
        ((urls.map fun u => (u, analyze_single_url u fetch measure)).filterMap Prod.snd).length,
        (sortByDesc combined_score
          ((urls.map fun u => (u, analyze_single_url u fetch measure)).filterMap
            Prod.snd)).enum.map
          (fun p => ComparisonResult.mk p.2.url p.2.cro_score p.2.breakdown p.2.performance
            (p.1 + 1)),
        determine_winners (sortByDesc combined_score
          ((urls.map fun u => (u, analyze_single_url u fetch measure)).filterMap Prod.snd)),
        generate_comparison_insights
          (sortByDesc combined_score
            ((urls.map fun u => (u, analyze_single_url u fetch measure)).filterMap Prod.snd))
          ((urls.map fun u => (u, analyze_single_url u fetch measure)).filterMap
            fun p => if p.2.isNone then some p.1 else none)⟩ ∧
      ((urls.map fun u => (u, analyze_single_url u fetch measure)).filterMap Prod.snd) ≠ [] := by
  unfold compare_competitors at h
  split_ifs at h
  dsimp only at h
  rw [ite_eq_iff] at h
  rcases h with ⟨_, h⟩ | ⟨hne, h⟩
  · exact absurd h (by simp)
  · rw [Except.ok.injEq] at h
    exact ⟨h.symm, hne⟩

set_option maxRecDepth 100000 in
/-- C2: the comparison ranking sorts by combined score descending with a
stable sort — the output is pairwise descending, and for each key value
the elements with that combined score appear exactly in input order —
and ranks are the consecutive 1-based positions of the sorted order; on
combined scores [150, 90, 150] for inputs a, b, c the ranks are
a = 1, c = 2, b = 3. -/
theorem claim_C2_stable_ranking :
    (∀ l : List AnalyzedResult,
      (sortByDesc combined_score l).Pairwise fun x y => combined_score y ≤ combined_score x) ∧
    (∀ (l : List AnalyzedResult) (k : Nat),
      (sortByDesc combined_score l).filter (fun r => combined_score r == k) =
        l.filter (fun r => combined_score r == k)) ∧
    (∀ (ts : String) (urls : List String) (fetch : String → Option ContentData)
      (measure : String → Option PerformanceMetrics) (a : ComparisonAnalysis),
      compare_competitors ts urls fetch measure = .ok a →
      a.results.map ComparisonResult.rank = List.range' 1 a.results.length) ∧
    (runC2 = .ok analysisC2 ∧
      analysisC2.results.map (fun r => (r.url, r.rank)) = [("a", 1), ("c", 2), ("b", 3)]) := by
  refine ⟨fun l => sortByDesc_sorted combined_score l,
    fun l k => sortByDesc_filter_key combined_score l k, ?_, rfl, by decide⟩
  intro ts urls fetch measure a h
  obtain ⟨ha, -⟩ := compare_competitors_ok_inv ts urls fetch measure a h
  subst ha
  dsimp only
  rw [List.map_map, List.length_map, List.enum_length]
  simpa [Function.comp] using enum_map_rank (sortByDesc combined_score
    ((urls.map fun u => (u, analyze_single_url u fetch measure)).filterMap Prod.snd))

/-- C2 witness: the rank-assignment consequence instantiated on the
concrete three-URL comparison run. -/
theorem claim_C2_stable_ranking_witness :
    analysisC2.results.map ComparisonResult.rank = List.range' 1 analysisC2.results.length :=
  claim_C2_stable_ranking.2.2.1 "2024-01-01T00:00:00" ["a", "b", "c"] fetchC2 measC2
    analysisC2 rfl

theorem filterMap_guard {α : Type} (p : α → Bool) (l : List α) :
    l.filterMap (fun u => if p u then some u else none) = l.filter p := by
  induction l with
  | nil => rfl
  | cons x xs ih =>
    by_cases hx : p x <;> simp [List.filterMap_cons, List.filter_cons, hx, ih]

/-- When there are successful results and failed URLs, the failed-URL
insight (count plus up to the first three URLs) is in the insight list. -/
theorem failed_mem_insights (results : List AnalyzedResult) (failed_urls : List String)
    (hres : results ≠ []) (hf : failed_urls ≠ []) :
    ("❌ " ++ toString failed_urls.length ++ " URL(s) failed to analyze: " ++
      String.intercalate ", " (failed_urls.take 3)) ∈
      generate_comparison_insights results failed_urls := by
  cases results with
  | nil => exact absurd rfl hres
  | cons b rest =>
    simp only [generate_comparison_insights]
    refine List.mem_append_left _ (List.mem_append_right _ ?_)
    rw [if_pos hf]
    exact List.mem_singleton_self _

/-- C4: whenever the comparison succeeds, `total_analyzed` is the number
of successful per-URL analyses, the results list has exactly that
length, and if any URL failed, an insight naming the failed count and up
to the first three failed URLs is present. -/
theorem claim_C4_partial_failure (ts : String) (urls : List String)
    (fetch : String → Option ContentData) (measure : String → Option PerformanceMetrics)
    (a : ComparisonAnalysis)
    (h : compare_competitors ts urls fetch measure = .ok a) :
    a.total_analyzed = (urls.filterMap fun u => analyze_single_url u fetch measure).length ∧
    a.results.length = a.total_analyzed ∧
    ((urls.filter fun u => (analyze_single_url u fetch measure).isNone) ≠ [] →
      ("❌ " ++ toString (urls.filter fun u =>
          (analyze_single_url u fetch measure).isNone).length ++
        " URL(s) failed to analyze: " ++
        String.intercalate ", " ((urls.filter fun u =>
          (analyze_single_url u fetch measure).isNone).take 3)) ∈ a.insights) := by
  obtain ⟨ha, hne⟩ := compare_competitors_ok_inv ts urls fetch measure a h
  have hsucc : ((urls.map fun u => (u, analyze_single_url u fetch measure)).filterMap
      Prod.snd) = urls.filterMap fun u => analyze_single_url u fetch measure := by
    rw [List.filterMap_map]; rfl
  have hfail : ((urls.map fun u => (u, analyze_single_url u fetch measure)).filterMap
      fun p => if p.2.isNone then some p.1 else none) =
      urls.filter fun u => (analyze_single_url u fetch measure).isNone := by
    rw [List.filterMap_map]
    exact filterMap_guard (fun u => (analyze_single_url u fetch measure).isNone) urls
  subst ha
  refine ⟨by rw [hsucc], ?_, ?_⟩
  · dsimp only
    rw [List.length_map, List.enum_length,
      (sortByDesc_perm combined_score _).length_eq]
  · intro hfne
    dsimp only
    rw [← hfail] at hfne ⊢
    refine failed_mem_insights _ _ ?_ hfne
    have hlen := (sortByDesc_perm combined_score
      ((urls.map fun u => (u, analyze_single_url u fetch measure)).filterMap Prod.snd)).length_eq
    intro hsnil
    rw [hsnil] at hlen
    exact hne (List.length_eq_zero.mp hlen.symm)

/-- C4 witness: three URLs of which "b" fails — 2 analyzed, 2 results,
and the insight names the single failed URL. -/
theorem claim_C4_partial_failure_witness :
    analysisC4.total_analyzed = 2 ∧ analysisC4.results.length = 2 ∧
    "❌ 1 URL(s) failed to analyze: b" ∈ analysisC4.insights := by
  have h := claim_C4_partial_failure "2024-01-01T00:00:00" ["a", "b", "c"] fetchC4 measNone
    analysisC4 rfl
  refine ⟨?_, ?_, ?_⟩
  · rw [h.1]; rfl
  · rw [h.2.1, h.1]; rfl
  · exact h.2.2 (by decide)

/-- Python `max(results, key=f)` returns the first maximum: it attains
the maximum key and everything placed before it is strictly smaller. -/
theorem pyMaxBy_isFirstMax {α : Type} (f : α → Nat) (x : α) (xs : List α) :
    IsFirstMax f (x :: xs) (pyMaxBy f x xs) := by
  induction xs generalizing x with
  | nil =>
    refine ⟨?_, [], [], rfl, fun z hz => absurd hz (List.not_mem_nil z)⟩
    intro z hz
    rcases List.mem_singleton.mp hz with rfl
    exact le_refl _
  | cons y ys ih =>
    by_cases hxy : f x < f y
    · have hm : pyMaxBy f x (y :: ys) = pyMaxBy f y ys := by
        show List.foldl _ (if f x < f y then y else x) ys = _
        rw [if_pos hxy]; rfl
      obtain ⟨hmax, l₁, l₂, hdec, hlt⟩ := ih y
      rw [hm]
      refine ⟨?_, x :: l₁, l₂, ?_, ?_⟩
      · intro z hz
        rcases List.mem_cons.mp hz with rfl | hz'
        · have hy := hmax y (List.mem_cons_self y ys)
          omega
        · exact hmax z hz'
      · rw [List.cons_append, ← hdec]
      · intro z hz
        rcases List.mem_cons.mp hz with rfl | hz'
        · have hy := hmax y (List.mem_cons_self y ys)
          omega
        · exact hlt z hz'
    · have hm : pyMaxBy f x (y :: ys) = pyMaxBy f x ys := by
        show List.foldl _ (if f x < f y then y else x) ys = _
        rw [if_neg hxy]; rfl
      obtain ⟨hmax, l₁, l₂, hdec, hlt⟩ := ih x
      rw [hm]
      cases l₁ with
      | nil =>
        rw [List.nil_append, List.cons.injEq] at hdec
        obtain ⟨hmx, -⟩ := hdec
        rw [← hmx]
        refine ⟨?_, [], y :: ys, rfl, fun z hz => absurd hz (List.not_mem_nil z)⟩
        intro z hz
        rcases List.mem_cons.mp hz with rfl | hz'
        · exact le_refl _
        rcases List.mem_cons.mp hz' with rfl | hz''
        · omega
        · have := hmax z (List.mem_cons_of_mem x hz'')
          rw [← hmx] at this
          exact this
      | cons w l₁' =>
        rw [List.cons_append, List.cons.injEq] at hdec
        obtain ⟨hwx, hys⟩ := hdec
        refine ⟨?_, x :: y :: l₁', l₂, ?_, ?_⟩
        · intro z hz
          rcases List.mem_cons.mp hz with rfl | hz'
          · exact hmax z (List.mem_cons_self z ys)
          rcases List.mem_cons.mp hz' with rfl | hz''
          · have := hmax x (List.mem_cons_self x ys)
            omega
          · exact hmax z (List.mem_cons_of_mem x hz'')
        · rw [List.cons_append, List.cons_append, ← hys]
        · intro z hz
          have hxlt : f x < f (pyMaxBy f x ys) := by
            have := hlt w (List.mem_cons_self w l₁')
            rw [← hwx] at this
            exact this
          rcases List.mem_cons.mp hz with rfl | hz'
          · exact hxlt
          rcases List.mem_cons.mp hz' with rfl | hz''
          · omega
          · exact hlt z (List.mem_cons_of_mem w hz'')

/-- C8: the winner map has exactly the nine keys overall, cro_score,
performance and the six breakdown categories, in source order, and each
key holds the URL of the first maximum of the corresponding metric. -/
theorem claim_C8_winner_map (r : AnalyzedResult) (rs : List AnalyzedResult) :
    ((determine_winners (r :: rs)).map Prod.fst =
      ["overall", "cro_score", "performance", "title", "meta_description",
       "h1_tags", "ctas", "forms", "content"]) ∧
    (∃ x, IsFirstMax combined_score (r :: rs) x ∧
      (determine_winners (r :: rs)).lookup "overall" = some x.url) ∧
    (∃ x, IsFirstMax AnalyzedResult.cro_score (r :: rs) x ∧
      (determine_winners (r :: rs)).lookup "cro_score" = some x.url) ∧
    (∃ x, IsFirstMax AnalyzedResult.performance_score (r :: rs) x ∧
      (determine_winners (r :: rs)).lookup "performance" = some x.url) ∧
    (∃ x, IsFirstMax (fun z => z.breakdown.title) (r :: rs) x ∧
      (determine_winners (r :: rs)).lookup "title" = some x.url) ∧
    (∃ x, IsFirstMax (fun z => z.breakdown.meta_description) (r :: rs) x ∧
      (determine_winners (r :: rs)).lookup "meta_description" = some x.url) ∧
    (∃ x, IsFirstMax (fun z => z.breakdown.h1_tags) (r :: rs) x ∧
      (determine_winners (r :: rs)).lookup "h1_tags" = some x.url) ∧
    (∃ x, IsFirstMax (fun z => z.breakdown.ctas) (r :: rs) x ∧
      (determine_winners (r :: rs)).lookup "ctas" = some x.url) ∧
    (∃ x, IsFirstMax (fun z => z.breakdown.forms) (r :: rs) x ∧
      (determine_winners (r :: rs)).lookup "forms" = some x.url) ∧
    (∃ x, IsFirstMax (fun z => z.breakdown.content) (r :: rs) x ∧
      (determine_winners (r :: rs)).lookup "content" = some x.url) :=
  ⟨rfl,
    ⟨_, pyMaxBy_isFirstMax combined_score r rs, rfl⟩,
    ⟨_, pyMaxBy_isFirstMax AnalyzedResult.cro_score r rs, rfl⟩,
    ⟨_, pyMaxBy_isFirstMax AnalyzedResult.performance_score r rs, rfl⟩,
    ⟨_, pyMaxBy_isFirstMax (fun z => z.breakdown.title) r rs, rfl⟩,
    ⟨_, pyMaxBy_isFirstMax (fun z => z.breakdown.meta_description) r rs, rfl⟩,
    ⟨_, pyMaxBy_isFirstMax (fun z => z.breakdown.h1_tags) r rs, rfl⟩,
    ⟨_, pyMaxBy_isFirstMax (fun z => z.breakdown.ctas) r rs, rfl⟩,
    ⟨_, pyMaxBy_isFirstMax (fun z => z.breakdown.forms) r rs, rfl⟩,
    ⟨_, pyMaxBy_isFirstMax (fun z => z.breakdown.content) r rs, rfl⟩⟩

/-- Rounding spec for `roundHalfEven`: the result is within half of the
argument, and at an exact half-integer it is even. -/
theorem roundHalfEven_spec (q : ℚ) :
    |q - roundHalfEven q| ≤ 1 / 2 ∧
      (|q - (roundHalfEven q : ℚ)| = 1 / 2 → roundHalfEven q % 2 = 0) := by
  have h0 : (0 : ℚ) ≤ q - ⌊q⌋ := by
    have := Int.floor_le q
    linarith
  have h1 : q - ⌊q⌋ < 1 := by
    have := Int.lt_floor_add_one q
    linarith
  unfold roundHalfEven
  dsimp only
  split_ifs with hlt hgt heven
  · constructor
    · rw [abs_of_nonneg h0]
      linarith
    · intro habs
      rw [abs_of_nonneg h0] at habs
      linarith
  · constructor
    · push_cast
      rw [abs_of_nonpos (by linarith)]
      linarith
    · intro habs
      push_cast at habs
      rw [abs_of_nonpos (by linarith)] at habs
      linarith
  · have hhalf : q - ⌊q⌋ = 1 / 2 := le_antisymm (by linarith) (by linarith)
    constructor
    · rw [abs_of_nonneg h0, hhalf]
    · intro _
      exact heven
  · have hhalf : q - ⌊q⌋ = 1 / 2 := le_antisymm (by linarith) (by linarith)
    constructor
    · push_cast
      rw [abs_of_nonpos (by linarith)]
      linarith
    · intro _
      omega

/-- C9 counterexample: in the two-URL comparison whose successful CRO
scores are 25 and 10 (average 17.5), the first insight displays the
average as 18 — the round-half-even value — whereas truncating the
average would display 17. -/
theorem claim_C9_truncation_counterexample :
    runC9 = .ok analysisC9 ∧
    analysisC9.results.map ComparisonResult.score = [25, 10] ∧
    analysisC9.insights.head? =
      some "📊 Average CRO Score: 18/100 | Average Performance Score: 0/100" ∧
    ⌊((25 : ℚ) + 10) / 2⌋ = 17 ∧
    analysisC9.insights.head? ≠
      some "📊 Average CRO Score: 17/100 | Average Performance Score: 0/100" := by
  have hhead : analysisC9.insights.head? =
      some "📊 Average CRO Score: 18/100 | Average Performance Score: 0/100" := by
    have e1 : analysisC9.insights = generate_comparison_insights
        [⟨"b", 25, ⟨0, 0, 0, 25, 0, 0⟩, ⟨0, 0, none, 0⟩, 0⟩,
         ⟨"a", 10, ⟨10, 0, 0, 0, 0, 0⟩, ⟨0, 0, none, 0⟩, 0⟩] [] := rfl
    rw [e1]
    simp only [generate_comparison_insights, List.cons_append, List.nil_append,
      List.append_assoc, List.head?_cons]
    norm_num [fmt0, roundHalfEven]
    rfl
  exact ⟨rfl, rfl, hhead, by norm_num, by rw [hhead]; decide⟩

/-- C9 (amended): the first insight of every insight list over a
non-empty successful set displays the average CRO score and the average
performance score as integers obtained by rounding the exact average to
the nearest integer with ties to even — not by truncation. -/
theorem claim_C9_rounded_average_display (best : AnalyzedResult)
    (rest : List AnalyzedResult) (failed_urls : List String) :
    ∃ nc np : ℤ,
      (generate_comparison_insights (best :: rest) failed_urls).head? =
        some ("📊 Average CRO Score: " ++ toString nc ++
          "/100 | Average Performance Score: " ++ toString np ++ "/100") ∧
      |((best :: rest).map fun r => (r.cro_score : ℚ)).sum / ((best :: rest).length : ℚ) -
        nc| ≤ 1 / 2 ∧
      (|((best :: rest).map fun r => (r.cro_score : ℚ)).sum / ((best :: rest).length : ℚ) -
        nc| = 1 / 2 → nc % 2 = 0) ∧
      |((best :: rest).map fun r => (r.performance_score : ℚ)).sum /
        ((best :: rest).length : ℚ) - np| ≤ 1 / 2 ∧
      (|((best :: rest).map fun r => (r.performance_score : ℚ)).sum /
        ((best :: rest).length : ℚ) - np| = 1 / 2 → np % 2 = 0) := by
  refine ⟨roundHalfEven (((best :: rest).map fun r => (r.cro_score : ℚ)).sum /
      ((best :: rest).length : ℚ)),
    roundHalfEven (((best :: rest).map fun r => (r.performance_score : ℚ)).sum /
      ((best :: rest).length : ℚ)),
    ?_, (roundHalfEven_spec _).1, (roundHalfEven_spec _).2,
    (roundHalfEven_spec _).1, (roundHalfEven_spec _).2⟩
  simp only [generate_comparison_insights, List.cons_append, List.nil_append,
    List.append_assoc, List.head?_cons]
  rfl

end CroService
